import Mathlib

/-!
Shallow embedding of the LE910CX modem driver
(`src/salt/base/ext/_utils/le910cx_conn.py`) together with proofs of the
specified properties of its command executor, response decoders and
stateful setting accessors.
-/

deriving instance DecidableEq for Except

namespace LE910CX

/-! ## The error sentinel pattern (source line 14) -/

/-- Result of matching the module-level error pattern
`ERROR|\+(?P<type>.+) ERROR: (?P<reason>.+)` from the source: either the
bare `ERROR` sentinel, or a vendor-coded error with a type and a reason. -/
inductive ErrInfo where
  | generic
  | coded (ty reason : String)
deriving DecidableEq, Repr

/-- Boolean prefix test on character lists. -/
def listPre : List Char → List Char → Bool
  | [], _ => true
  | _ :: _, [] => false
  | a :: as, b :: bs => a == b && listPre as bs

/-- Boolean infix (substring) test on character lists. -/
def listInf (n : List Char) : List Char → Bool
  | [] => n.isEmpty
  | c :: t => listPre n (c :: t) || listInf n t

/-- `strHas hay needle` holds when `needle` occurs inside `hay`. -/
def strHas (hay needle : String) : Bool :=
  listInf needle.toList hay.toList

/-- `strStarts s p` holds when `p` is a prefix of `s`. -/
def strStarts (s p : String) : Bool := listPre p.toList s.toList

/-- Split a character list at every comma (Python `str.split(",")`). -/
def splitComma : List Char → List (List Char)
  | [] => [[]]
  | c :: t =>
    if c = ',' then [] :: splitComma t
    else
      match splitComma t with
      | h :: r => (c :: h) :: r
      | [] => [[c]]

/-- Split the text after the leading `+` at an occurrence of the
literal `" ERROR: "` into (type, reason), both as in the regex groups:
the latest occurrence whose reason is nonempty is preferred, matching
the greedy `.+` of the type group with backtracking. -/
def errSplit : List Char → Option (List Char × List Char)
  | [] => none
  | c :: t =>
    match errSplit t with
    | some (ty, r) => some (c :: ty, r)
    | none =>
      if listPre " ERROR: ".toList (c :: t) then
        match (c :: t).drop 8 with
        | [] => none
        | r => some ([], r)
      else none

/-- `re.match` of the source's `error_regex` against one line: the first
alternative matches a line starting with `ERROR`; the second matches
`+<TYPE> ERROR: <reason>` with nonempty type and reason, the type taken
greedily. -/
def errorRegexMatch (line : String) : Option ErrInfo :=
  if strStarts line "ERROR" then some .generic
  else
    match line.toList with
    | '+' :: rest =>
      match errSplit rest with
      | some (ty, r) =>
        if ty.isEmpty then none else some (.coded (String.mk ty) (String.mk r))
      | none => none
    | _ => none

/-! ## The transport's read primitive and `execute` (source lines 106-151) -/

/-- Outcome of one `read_until` call: the collected `data` lines when a
ready word was matched, or the matched `error`.  Exactly one of the two
fields is populated. -/
structure RURes where
  data : Option (List String)
  error : Option ErrInfo
deriving DecidableEq, Repr

/-- Modelled from the spec: `SerialConn.read_until` (the line-transport
primitive of §4.1/§6, whose code is not part of this repository).
Scans incoming lines until a line matches the error pattern or the
ready word appears in a line, whichever comes first; the preceding
lines are collected as data.  `none` models a timeout (lines
exhausted), which raises. -/
def read_untilGo (ready : String) : List String → List String → Option (RURes × List String)
  | [], _ => none
  | l :: rest, acc =>
    match errorRegexMatch l with
    | some e => some (⟨none, some e⟩, rest)
    | none =>
      if strHas l ready then some (⟨some acc.reverse, none⟩, rest)
      else read_untilGo ready rest (l :: acc)

/-- Modelled from the spec: see `read_untilGo`. -/
def read_until (ready : String) (lines : List String) : Option (RURes × List String) :=
  read_untilGo ready lines []

/-- Failure modes of `execute`: a timeout from `read_until`, the
`CommandExecutionException` raised when `raise_on_error` is set and the
modem reported an error, and the `TypeError` raised by evaluating
`"error" in res` when `res` is still `None`. -/
inductive ExecErr where
  | timeout
  | cmdError (e : ErrInfo)
  | typeErr
deriving DecidableEq, Repr

/-- The ready-word loop of `execute` (source lines 128-133): one
`read_until` per ready word, breaking out as soon as a result carries
an error; `res` holds the result of the most recent read. -/
def executeLoop : List String → List String → Option RURes → Except ExecErr (Option RURes × List String)
  | [], lines, res => .ok (res, lines)
  | w :: ws, lines, _ =>
    match read_until w lines with
    | none => .error .timeout
    | some (r, rest) =>
      if r.error.isSome then .ok (some r, rest)
      else executeLoop ws rest (some r)

/-- `LE910CXConn.execute` (source lines 106-151), with the serial
transport abstracted to the list of lines it will yield.  After the
ready-word loop, when `raise_on_error` is set the source evaluates
`"error" in res`: with `res` still `None` (empty `ready_words`) that
raises a `TypeError`; with an error present it raises
`CommandExecutionException`; otherwise the result is returned.  When
`raise_on_error` is false the conjunction short-circuits and `res` is
returned as-is. -/
def execute (ws lines : List String) (raiseOnError : Bool) : Except ExecErr (Option RURes) :=
  match executeLoop ws lines none with
  | .error e => .error e
  | .ok (res, _) =>
    if raiseOnError then
      match res with
      | none => .error .typeErr
      | some r =>
        match r.error with
        | some e => .error (.cmdError e)
        | none => .ok (some r)
    else .ok res

/-- The sequence of `read_until` results produced during one `execute`
call, in order; empty for an empty ready-word list, and cut short at
the first error-bearing result or timeout. -/
def readsTrace : List String → List String → List RURes
  | [], _ => []
  | w :: ws, lines =>
    match read_until w lines with
    | none => []
    | some (r, rest) =>
      if r.error.isSome then [r] else r :: readsTrace ws rest

/-! ## Accessor-level model

The decoders and setting accessors call `self.execute(cmd)` and only
use the `data` field of its result.  At this layer the transport is
abstracted to a script: a list of per-`execute`-call results, consumed
in order, while the commands issued are recorded in a trace. -/

/-- The value found under the `"data"` key of an `execute` result:
absent, a single response line (string), or a list of lines. -/
inductive PyData where
  | pnone
  | pstr (s : String)
  | plist (l : List String)
deriving DecidableEq, Repr

/-- Failure of an `execute` call as seen by a caller: a modem-reported
error (raised as `CommandExecutionException`), a timeout, or an
exhausted script (a modelling artefact marking an under-specified
environment). -/
inductive EErr where
  | cmdFail
  | timedOut
  | scriptEnd
deriving DecidableEq, Repr

/-- The exceptions the decoders and accessors can raise.  `exec`
propagates a failing `execute` call; `invalidResponse` is the
`InvalidResponseException` (the `ProtocolViolation` of the spec);
`attributeError`, `typeError`, `valueError`, `keyError` and
`indexError` model the like-named Python errors; `noFix` is
`NoFixException`; `badSign` is the bare `Exception` raised for an
unexpected SMS time-offset sign. -/
inductive Err where
  | exec (e : EErr)
  | invalidResponse
  | attributeError
  | typeError
  | valueError
  | keyError
  | indexError
  | noFix
  | badSign
deriving DecidableEq, Repr

/-- Transport script plus the trace of commands issued so far. -/
structure St where
  script : List (Except EErr PyData)
  trace : List String
deriving DecidableEq, Repr

/-- One `self.execute(cmd)` call at the accessor layer: record the
command and consume the next scripted result. -/
def runExec (cmd : String) (s : St) : Except EErr PyData × St :=
  match s.script with
  | [] => (.error .scriptEnd, ⟨[], s.trace ++ [cmd]⟩)
  | r :: rest => (r, ⟨rest, s.trace ++ [cmd]⟩)

/-- `res.get("data", "")` followed by use as a regex subject: an absent
key defaults to the empty string; a list of lines is not a string and
makes `re.match` raise a `TypeError`. -/
def dataStr : PyData → Except Err String
  | .pnone => .ok ""
  | .pstr s => .ok s
  | .plist _ => .error .typeError

/-- Digit value of a character. -/
def digitVal (c : Char) : ℕ := c.toNat - 48

/-- `bool(int(field))` for a single decoded digit: parse as an integer
first, then convert the integer to a boolean. -/
def pyBoolOfDigit (c : Char) : Bool := digitVal c ≠ 0

/-! ### error_config (source lines 153-191) -/

/-- `ME_ERROR_MODE_MAP` lookup (keys 0-2). -/
def meModeName (c : Char) : String :=
  if c = '0' then "disabled" else if c = '1' then "numeric" else "verbose"

/-- `dict_key_by_value` on `ME_ERROR_MODE_MAP`, rendered as the digit
formatted into the write command. -/
def meModeVal (m : String) : String :=
  if m = "disabled" then "0" else if m = "numeric" then "1" else "2"

/-- `ME_ERROR_MODE_MAP.values()`. -/
def meModeNames : List String := ["disabled", "numeric", "verbose"]

/-- `re.match` of `\+CMEE: (?P<mode>[0-2])` against the response line:
the prefix `+CMEE: ` followed by one digit in `0`-`2`. -/
def cmeeMatch (ds : String) : Option Char :=
  match ds.toList with
  | '+' :: 'C' :: 'M' :: 'E' :: 'E' :: ':' :: ' ' :: c :: _ =>
    if '0' ≤ c ∧ c ≤ '2' then some c else none
  | _ => none

/-- Return value of `error_config`. -/
structure ECRet where
  mode : String
deriving DecidableEq, Repr

/-- `LE910CXConn.error_config` (source lines 153-191): read `AT+CMEE?`,
decode the current mode (raising `InvalidResponseException` on a shape
mismatch), then — when a mode argument is given — validate it and
write `AT+CMEE=<n>` unless the read value already equals it and
`force` is unset. -/
def error_config (mode : Option String) (force : Bool) (s : St) : Except Err ECRet × St :=
  match runExec "AT+CMEE?" s with
  | (.error e, s1) => (.error (.exec e), s1)
  | (.ok d, s1) =>
    match dataStr d with
    | .error er => (.error er, s1)
    | .ok ds =>
      match cmeeMatch ds with
      | none => (.error .invalidResponse, s1)
      | some c =>
        let cur := meModeName c
        match mode with
        | none => (.ok ⟨cur⟩, s1)
        | some m =>
          if m ∈ meModeNames then
            if cur ≠ m ∨ force then
              match runExec ("AT+CMEE=" ++ meModeVal m) s1 with
              | (.error e, s2) => (.error (.exec e), s2)
              | (.ok _, s2) => (.ok ⟨m⟩, s2)
            else (.ok ⟨cur⟩, s1)
          else (.error .valueError, s1)

/-! ### imei (source lines 193-195) -/

/-- Return value of `imei`. -/
structure ImeiRet where
  value : String
deriving DecidableEq, Repr

/-- `re.match` of `\+GSN: (?P<value>[0-9]+)`: the prefix `+GSN: `
followed by at least one digit, taken greedily. -/
def gsnMatch (ds : String) : Option String :=
  match ds.toList with
  | '+' :: 'G' :: 'S' :: 'N' :: ':' :: ' ' :: rest =>
    match rest.takeWhile Char.isDigit with
    | [] => none
    | l => some (String.mk l)
  | _ => none

/-- `LE910CXConn.imei` (source lines 193-195): the match object is used
unguarded, so a shape mismatch surfaces as an `AttributeError` from
`None.groupdict()`, not as an `InvalidResponseException`. -/
def imei (s : St) : Except Err ImeiRet × St :=
  match runExec "AT+GSN=1" s with
  | (.error e, s1) => (.error (.exec e), s1)
  | (.ok d, s1) =>
    match dataStr d with
    | .error er => (.error er, s1)
    | .ok ds =>
      match gsnMatch ds with
      | none => (.error .attributeError, s1)
      | some v => (.ok ⟨v⟩, s1)

/-! ### sms_format (source lines 249-276) -/

/-- `SMS_FORMAT_MODES` lookup (keys 0-1). -/
def smsModeName (c : Char) : String := if c = '0' then "PUD" else "TXT"

/-- `dict_key_by_value` on `SMS_FORMAT_MODES`, as the digit written. -/
def smsModeVal (m : String) : String := if m = "PUD" then "0" else "1"

/-- `re.match` of `\+CMGF: (?P<mode>[0-1])`. -/
def cmgfMatch (ds : String) : Option Char :=
  match ds.toList with
  | '+' :: 'C' :: 'M' :: 'G' :: 'F' :: ':' :: ' ' :: c :: _ =>
    if '0' ≤ c ∧ c ≤ '1' then some c else none
  | _ => none

/-- `mode.upper()`. -/
def strUpper (s : String) : String := String.mk (s.toList.map Char.toUpper)

/-- Return value of `sms_format`. -/
structure SFRet where
  mode : String
deriving DecidableEq, Repr

/-- `LE910CXConn.sms_format` (source lines 249-276): unless `force` is
set it first reads `AT+CMGF?` (an unmatched response raises
`AttributeError` from `None.group`); with `force` set the read is
skipped entirely and a missing mode argument is a `ValueError`.  A
valid desired mode is upper-cased and written unless it equals the
value just read and `force` is unset. -/
def sms_format (mode : Option String) (force : Bool) (s : St) : Except Err SFRet × St :=
  if force then
    match mode with
    | none => (.error .valueError, s)
    | some m0 =>
      let m := strUpper m0
      if m ∈ ["PUD", "TXT"] then
        match runExec ("AT+CMGF=" ++ smsModeVal m) s with
        | (.error e, s1) => (.error (.exec e), s1)
        | (.ok _, s1) => (.ok ⟨m⟩, s1)
      else (.error .valueError, s)
  else
    match runExec "AT+CMGF?" s with
    | (.error e, s1) => (.error (.exec e), s1)
    | (.ok d, s1) =>
      match dataStr d with
      | .error er => (.error er, s1)
      | .ok ds =>
        match cmgfMatch ds with
        | none => (.error .attributeError, s1)
        | some c =>
          let cur := smsModeName c
          match mode with
          | none => (.ok ⟨cur⟩, s1)
          | some m0 =>
            let m := strUpper m0
            if m ∈ ["PUD", "TXT"] then
              if m ≠ cur then
                match runExec ("AT+CMGF=" ++ smsModeVal m) s1 with
                | (.error e, s2) => (.error (.exec e), s2)
                | (.ok _, s2) => (.ok ⟨m⟩, s2)
              else (.ok ⟨cur⟩, s1)
            else (.error .valueError, s1)

/-! ### gnss_session (source lines 434-464) -/

/-- `re.match` of `\$GPSP: (?P<status>[0-1])`. -/
def gpspMatch (ds : String) : Option Char :=
  match ds.toList with
  | '$' :: 'G' :: 'P' :: 'S' :: 'P' :: ':' :: ' ' :: c :: _ =>
    if '0' ≤ c ∧ c ≤ '1' then some c else none
  | _ => none

/-- Return value of `gnss_session`. -/
structure GSRet where
  status : Bool
deriving DecidableEq, Repr

/-- `LE910CXConn.gnss_session` (source lines 434-464): read `AT$GPSP?`
(`InvalidResponseException` on shape mismatch), decode the status as
`bool(int(...))`, then — when a status argument is given — write
`AT$GPSP=<d>` unless it equals the read value and `force` is unset. -/
def gnss_session (status : Option Bool) (force : Bool) (s : St) : Except Err GSRet × St :=
  match runExec "AT$GPSP?" s with
  | (.error e, s1) => (.error (.exec e), s1)
  | (.ok d, s1) =>
    match dataStr d with
    | .error er => (.error er, s1)
    | .ok ds =>
      match gpspMatch ds with
      | none => (.error .invalidResponse, s1)
      | some c =>
        let cur := pyBoolOfDigit c
        match status with
        | none => (.ok ⟨cur⟩, s1)
        | some b =>
          if b ≠ cur ∨ force then
            match runExec ("AT$GPSP=" ++ (if b then "1" else "0")) s1 with
            | (.error e, s2) => (.error (.exec e), s2)
            | (.ok _, s2) => (.ok ⟨b⟩, s2)
          else (.ok ⟨cur⟩, s1)

/-! ### gnss_nmea_data_config (source lines 466-557) -/

/-- `NMEA_MODE_MAP` lookup (keys 0-3). -/
def nmeaModeName (c : Char) : String :=
  if c = '0' then "disabled"
  else if c = '1' then "first_format"
  else if c = '2' then "second_format"
  else "port_lock"

/-- `dict_key_by_value` on `NMEA_MODE_MAP`, as the digit written. -/
def nmeaModeVal (m : String) : String :=
  if m = "disabled" then "0"
  else if m = "first_format" then "1"
  else if m = "second_format" then "2"
  else "3"

/-- `NMEA_MODE_MAP.values()`. -/
def nmeaModeNames : List String :=
  ["disabled", "first_format", "second_format", "port_lock"]

/-- `re.match` of the `$GPSNMUN: ` response pattern: a mode digit in
`0`-`3` and six `0`/`1` flags, comma separated. -/
def gpsnmunMatch (ds : String) : Option (Char × Char × Char × Char × Char × Char × Char) :=
  match ds.toList with
  | '$' :: 'G' :: 'P' :: 'S' :: 'N' :: 'M' :: 'U' :: 'N' :: ':' :: ' ' ::
      m :: ',' :: a :: ',' :: b :: ',' :: c :: ',' :: d :: ',' :: e :: ',' :: f :: _ =>
      if ('0' ≤ m ∧ m ≤ '3') ∧ ('0' ≤ a ∧ a ≤ '1') ∧ ('0' ≤ b ∧ b ≤ '1') ∧
         ('0' ≤ c ∧ c ≤ '1') ∧ ('0' ≤ d ∧ d ≤ '1') ∧ ('0' ≤ e ∧ e ≤ '1') ∧
         ('0' ≤ f ∧ f ≤ '1')
      then some (m, a, b, c, d, e, f) else none
  | _ => none

/-- Return value of `gnss_nmea_data_config`. -/
structure NMRet where
  mode : String
  gga : Bool
  gll : Bool
  gsa : Bool
  gsv : Bool
  rmc : Bool
  vtg : Bool
deriving DecidableEq, Repr

/-- `"{:d}".format(bool(x))`. -/
def b2s (b : Bool) : String := if b then "1" else "0"

/-- The write command of `gnss_nmea_data_config`. -/
def nmeaWriteCmd (m : String) (gga gll gsa gsv rmc vtg : Bool) : String :=
  "AT$GPSNMUN=" ++ nmeaModeVal m ++ "," ++ b2s gga ++ "," ++ b2s gll ++ "," ++
    b2s gsa ++ "," ++ b2s gsv ++ "," ++ b2s rmc ++ "," ++ b2s vtg

/-- `LE910CXConn.gnss_nmea_data_config` (source lines 466-557): read
`AT$GPSNMUN?` (`InvalidResponseException` on shape mismatch), decode
the mode plus six `bool(int(...))` flags, then — when a mode argument
is given — validate it and write the full configuration unless every
component equals the value just read and `force` is unset.  (The
`port_lock` write uses `CONNECT` as its ready word; ready words are
not part of this layer's trace.) -/
def gnss_nmea_data_config (mode : Option String) (gga gll gsa gsv rmc vtg : Bool)
    (force : Bool) (s : St) : Except Err NMRet × St :=
  match runExec "AT$GPSNMUN?" s with
  | (.error e, s1) => (.error (.exec e), s1)
  | (.ok d, s1) =>
    match dataStr d with
    | .error er => (.error er, s1)
    | .ok ds =>
      match gpsnmunMatch ds with
      | none => (.error .invalidResponse, s1)
      | some (m, a, b, c, dd, e, f) =>
        let cur : NMRet := ⟨nmeaModeName m, pyBoolOfDigit a, pyBoolOfDigit b,
          pyBoolOfDigit c, pyBoolOfDigit dd, pyBoolOfDigit e, pyBoolOfDigit f⟩
        match mode with
        | none => (.ok cur, s1)
        | some md =>
          if md ∈ nmeaModeNames then
            if cur.mode ≠ md ∨ cur.gga ≠ gga ∨ cur.gll ≠ gll ∨ cur.gsa ≠ gsa ∨
               cur.gsv ≠ gsv ∨ cur.rmc ≠ rmc ∨ cur.vtg ≠ vtg ∨ force then
              match runExec (nmeaWriteCmd md gga gll gsa gsv rmc vtg) s1 with
              | (.error er, s2) => (.error (.exec er), s2)
              | (.ok _, s2) => (.ok ⟨md, gga, gll, gsa, gsv, rmc, vtg⟩, s2)
            else (.ok cur, s1)
          else (.error .valueError, s1)

/-! ### gnss_location (source lines 358-432) -/

/-- All characters are digits. -/
def allDigits (l : List Char) : Bool := l.all Char.isDigit

/-- Shape of the `utc` group: `[0-9]{6}\.[0-9]{3}`. -/
def utcShape (f : String) : Bool :=
  match f.toList with
  | [a, b, c, d, e, g, '.', x, y, z] => allDigits [a, b, c, d, e, g, x, y, z]
  | _ => false

/-- Shape of the `lat` group: `[0-9]{4}\.[0-9]{4}(N|S)`. -/
def latShape (f : String) : Bool :=
  match f.toList with
  | [a, b, c, d, '.', e, g, x, y, h] =>
    allDigits [a, b, c, d, e, g, x, y] && (h == 'N' || h == 'S')
  | _ => false

/-- Shape of the `lon` group: `[0-9]{5}\.[0-9]{4}(W|E)`. -/
def lonShape (f : String) : Bool :=
  match f.toList with
  | [a, b, c, d, e, '.', g, x, y, z, h] =>
    allDigits [a, b, c, d, e, g, x, y, z] && (h == 'W' || h == 'E')
  | _ => false

/-- Shape of `[0-9]+\.?[0-9]*`: digits, then an optional dot followed
by digits. -/
def decOptShape (f : String) : Bool :=
  match f.toList with
  | [] => false
  | c :: _ =>
    c.isDigit &&
      (match (f.toList).dropWhile Char.isDigit with
       | [] => true
       | '.' :: r => allDigits r
       | _ => false)

/-- Shape of the `altitude` group: `-?[0-9]+\.?[0-9]*`. -/
def altShape (f : String) : Bool :=
  match f.toList with
  | '-' :: r => decOptShape (String.mk r)
  | _ => decOptShape f

/-- Shape of `[0-9]+\.[0-9]+` (course and the two speeds). -/
def decReqShape (f : String) : Bool :=
  match f.toList with
  | [] => false
  | c :: _ =>
    c.isDigit &&
      (match (f.toList).dropWhile Char.isDigit with
       | '.' :: r => !r.isEmpty && allDigits r
       | _ => false)

/-- Shape of the `date` group: `[0-9]{6}`. -/
def date6Shape (f : String) : Bool := f.length = 6 && allDigits f.toList

/-- Shape of the `nsat_gps` group: `[0-9]{2}`. -/
def nsat2Shape (f : String) : Bool := f.length = 2 && allDigits f.toList

/-- Match one optional comma-delimited field against its group shape:
an empty field leaves the group unmatched, a non-empty field must
match the shape in full (the group is followed by a literal comma in
the pattern), otherwise the whole regex fails. -/
def optField (p : String → Bool) (f : String) : Option (Option String) :=
  if f = "" then some none else if p f then some (some f) else none

/-- The final `(?P<nsat_glonass>[0-9]{2})?` group: the pattern is not
anchored at the end, so the group greedily takes two leading digits
when present and otherwise matches empty without failing. -/
def glonassGroup (f : String) : Option String :=
  match f.toList with
  | a :: b :: _ => if a.isDigit && b.isDigit then some (String.mk [a, b]) else none
  | _ => none

/-- The groups captured by the `$GPSACP` response pattern. -/
structure GpsacpM where
  utc : Option String
  lat : Option String
  lon : Option String
  hdop : Option String
  altitude : Option String
  fix : Char
  cog : Option String
  spkm : Option String
  spkn : Option String
  date : Option String
  nsatGps : Option String
  nsatGlonass : Option String
deriving DecidableEq, Repr

/-- `re.match` of the `$GPSACP` response pattern (source lines
374-388): the `$GPSACP: ` prefix, then eleven comma-terminated
optional groups (the `fix` group being mandatory, one digit `0`-`3`)
and the trailing optional two-digit GLONASS satellite count.  No group
shape can contain a comma, so matching is equivalent to splitting on
commas and checking each field against its group. -/
def gpsacpMatch (ds : String) : Option GpsacpM :=
  match ds.toList with
  | '$' :: 'G' :: 'P' :: 'S' :: 'A' :: 'C' :: 'P' :: ':' :: ' ' :: rest =>
    match (splitComma rest).map String.mk with
    | f0 :: f1 :: f2 :: f3 :: f4 :: f5 :: f6 :: f7 :: f8 :: f9 :: f10 :: f11 :: _ =>
      match optField utcShape f0, optField latShape f1, optField lonShape f2,
            optField decOptShape f3, optField altShape f4, optField decReqShape f6,
            optField decReqShape f7, optField decReqShape f8, optField date6Shape f9,
            optField nsat2Shape f10, f5.toList with
      | some u, some la, some lo, some hd, some al, some cg, some s1, some s2,
          some dt, some ng, [c] =>
        if '0' ≤ c ∧ c ≤ '3' then
          some ⟨u, la, lo, hd, al, c, cg, s1, s2, dt, ng, glonassGroup f11⟩
        else none
      | _, _, _, _, _, _, _, _, _, _, _ => none
    | _ => none
  | _ => none

/-- Python value of a nonnegative digit string. -/
def digitsToNat (l : List Char) : ℕ := l.foldl (fun a c => a * 10 + digitVal c) 0

/-- `float(f)` on the decimal shapes produced by the `$GPSACP` groups
(optional sign, digits, optional dot and fraction), as an exact
rational. -/
def pyFloat (f : String) : Option ℚ :=
  let (neg, l) :=
    match f.toList with
    | '-' :: r => (true, r)
    | r => (false, r)
  let ip := l.takeWhile Char.isDigit
  let rest := l.drop ip.length
  let mag : Option ℚ :=
    match rest with
    | [] => if ip.isEmpty then none else some (digitsToNat ip)
    | '.' :: fr =>
      if ip.isEmpty || !allDigits fr then none
      else some (digitsToNat ip + (digitsToNat fr : ℚ) / (10 : ℚ) ^ fr.length)
    | _ => none
  mag.map (fun q => if neg then -q else q)

/-- `int(f)`: optional sign then digits. -/
def pyInt (f : String) : Option ℤ :=
  match f.toList with
  | '+' :: r => if r.isEmpty || !allDigits r then none else some (digitsToNat r)
  | '-' :: r => if r.isEmpty || !allDigits r then none else some (-(digitsToNat r : ℤ))
  | r => if r.isEmpty || !allDigits r then none else some (digitsToNat r)

/-- Python slice `s[a:b]` for `0 ≤ a ≤ b`. -/
def pySlice (s : String) (a b : ℕ) : String :=
  String.mk ((s.toList.drop a).take (b - a))

/-- A captured group used where `None` would crash: `None[...]`,
`float(None)` and `int(None)` all raise `TypeError`. -/
def orCrash : Option String → Except Err String
  | none => .error .typeError
  | some v => .ok v

/-- `float` applied to a string, `ValueError` on failure. -/
def pyFloatE (f : String) : Except Err ℚ :=
  match pyFloat f with
  | none => .error .valueError
  | some q => .ok q

/-- `int` applied to a string, `ValueError` on failure. -/
def pyIntE (f : String) : Except Err ℤ :=
  match pyInt f with
  | none => .error .valueError
  | some z => .ok z

/-- `GNSS_LOCATION_FIX_MAP` lookup for the fix codes that reach it. -/
def fixName (c : Char) : String :=
  if c = '0' then "invalid_fix"
  else if c = '1' then "no_fix"
  else if c = '2' then "2D"
  else "3D"

/-- Latitude/longitude as returned: either the raw captured group
(possibly absent) or the decimal-degrees conversion. -/
inductive LatLonVal where
  | raw (v : Option String)
  | dd (q : ℚ)
deriving DecidableEq, Repr

/-- Return value of `gnss_location`. -/
structure GnssRet where
  time_utc : String
  date_utc : String
  hdop : ℚ
  alt : ℚ
  fix : String
  cog : ℚ
  sog_km : ℚ
  sog_kn : ℚ
  nsat_gps : ℤ
  nsat_glonass : ℤ
  lat : LatLonVal
  lon : LatLonVal
deriving DecidableEq, Repr

/-- Field extraction of `gnss_location` after a successful match with
fix ∈ {2, 3}, in the source's evaluation order (so the first crashing
conversion of an absent group determines the raised error). -/
def gnssBuild (decimalDegrees : Bool) (g : GpsacpM) : Except Err GnssRet := do
  let utc ← orCrash g.utc
  let timeUtc := pySlice utc 0 2 ++ ":" ++ pySlice utc 2 4 ++ ":" ++ pySlice utc 4 6
  let date ← orCrash g.date
  let dateUtc := "20" ++ pySlice date 4 6 ++ "-" ++ pySlice date 2 4 ++ "-" ++ pySlice date 0 2
  let hdop ← pyFloatE (← orCrash g.hdop)
  let alt ← pyFloatE (← orCrash g.altitude)
  let cog ← pyFloatE (← orCrash g.cog)
  let spkm ← pyFloatE (← orCrash g.spkm)
  let spkn ← pyFloatE (← orCrash g.spkn)
  let nsg ← pyIntE (← orCrash g.nsatGps)
  let ngl ← pyIntE (← orCrash g.nsatGlonass)
  if decimalDegrees then
    let lat ← orCrash g.lat
    let latDeg ← pyFloatE (pySlice lat 0 2)
    let latMin ← pyFloatE (pySlice lat 2 (lat.length - 1))
    let lon ← orCrash g.lon
    let lonDeg ← pyFloatE (pySlice lon 0 3)
    let lonMin ← pyFloatE (pySlice lon 3 (lon.length - 1))
    pure ⟨timeUtc, dateUtc, hdop, alt, fixName g.fix, cog, spkm, spkn, nsg, ngl,
      .dd (latDeg + latMin / 60), .dd (lonDeg + lonMin / 60)⟩
  else
    pure ⟨timeUtc, dateUtc, hdop, alt, fixName g.fix, cog, spkm, spkn, nsg, ngl,
      .raw g.lat, .raw g.lon⟩

/-- `LE910CXConn.gnss_location` (source lines 358-432): read
`AT$GPSACP`, match the response shape (`InvalidResponseException` on
mismatch), raise `NoFixException` for fix codes 0 and 1 before any
other field is parsed, and otherwise build the location record,
converting latitude/longitude to decimal degrees on request. -/
def gnss_location (decimalDegrees : Bool) (s : St) : Except Err GnssRet × St :=
  match runExec "AT$GPSACP" s with
  | (.error e, s1) => (.error (.exec e), s1)
  | (.ok d, s1) =>
    match dataStr d with
    | .error er => (.error er, s1)
    | .ok ds =>
      match gpsacpMatch ds with
      | none => (.error .invalidResponse, s1)
      | some g =>
        if g.fix = '0' ∨ g.fix = '1' then (.error .noFix, s1)
        else (gnssBuild decimalDegrees g, s1)

/-! ### Date-time arithmetic for `sms_list` (Python `datetime`) -/

/-- A `datetime.datetime` value (to second precision; the decoder
never produces microseconds). -/
structure PyDateTime where
  year : ℤ
  month : ℕ
  day : ℕ
  hour : ℕ
  minute : ℕ
  second : ℕ
deriving DecidableEq, Repr

/-- Gregorian leap-year test. -/
def isLeap (y : ℤ) : Bool := (y % 4 = 0 ∧ y % 100 ≠ 0) ∨ y % 400 = 0

/-- Days in a month. -/
def daysInMonth (y : ℤ) (m : ℕ) : ℕ :=
  if m = 2 then (if isLeap y then 29 else 28)
  else if m = 4 ∨ m = 6 ∨ m = 9 ∨ m = 11 then 30
  else 31

/-- Day count of a civil date from the epoch 1970-01-01 (standard
era-based Gregorian conversion). -/
def daysFromCivil (y : ℤ) (m d : ℕ) : ℤ :=
  let y' : ℤ := y - (if m ≤ 2 then 1 else 0)
  let era : ℤ := Int.fdiv y' 400
  let yoe : ℤ := y' - era * 400
  let mp : ℤ := ((m : ℤ) + 9) % 12
  let doy : ℤ := Int.fdiv (153 * mp + 2) 5 + (d : ℤ) - 1
  let doe : ℤ := yoe * 365 + Int.fdiv yoe 4 - Int.fdiv yoe 100 + doy
  era * 146097 + doe - 719468

/-- Inverse of `daysFromCivil`: the civil date of an epoch day count. -/
def civilFromDays (z : ℤ) : ℤ × ℕ × ℕ :=
  let z' : ℤ := z + 719468
  let era : ℤ := Int.fdiv z' 146097
  let doe : ℤ := z' - era * 146097
  let yoe : ℤ := Int.fdiv (doe - Int.fdiv doe 1460 + Int.fdiv doe 36524 - Int.fdiv doe 146096) 365
  let y : ℤ := yoe + era * 400
  let doy : ℤ := doe - (365 * yoe + Int.fdiv yoe 4 - Int.fdiv yoe 100)
  let mp : ℤ := Int.fdiv (5 * doy + 2) 153
  let d : ℤ := doy - Int.fdiv (153 * mp + 2) 5 + 1
  let m : ℤ := mp + (if mp < 10 then 3 else -9)
  (y + (if m ≤ 2 then 1 else 0), m.toNat, d.toNat)

/-- Seconds from the epoch of a `PyDateTime`. -/
def toSecs (t : PyDateTime) : ℤ :=
  daysFromCivil t.year t.month t.day * 86400 +
    (t.hour : ℤ) * 3600 + (t.minute : ℤ) * 60 + (t.second : ℤ)

/-- The `PyDateTime` at a given count of seconds from the epoch. -/
def fromSecs (z : ℤ) : PyDateTime :=
  let days : ℤ := Int.fdiv z 86400
  let sod : ℕ := (z - days * 86400).toNat
  let c := civilFromDays days
  ⟨c.1, c.2.1, c.2.2, sod / 3600, (sod % 3600) / 60, sod % 60⟩

/-- `datetime - timedelta(minutes=mins)` (a negative argument adds). -/
def subMinutes (t : PyDateTime) (mins : ℤ) : PyDateTime :=
  fromSecs (toSecs t - mins * 60)

/-- Parse exactly two digits. -/
def parse2 : List Char → Option (ℕ × List Char)
  | a :: b :: r =>
    if a.isDigit && b.isDigit then some (digitVal a * 10 + digitVal b, r) else none
  | _ => none

/-- Expect one literal character. -/
def expectChar (c : Char) : List Char → Option (List Char)
  | a :: r => if a = c then some r else none
  | [] => none

/-- `datetime.strptime(s, "%y/%m/%dT%H:%M:%S")` for the zero-padded
two-digit fields the modem emits, including `strptime`'s range
validation and its `%y` pivot (00-68 maps to 20xx, 69-99 to 19xx). -/
def pyStrptimeYmdHms (str : String) : Option PyDateTime :=
  match parse2 str.toList with
  | none => none
  | some (yy, r1) =>
    match expectChar '/' r1 with
    | none => none
    | some r2 =>
      match parse2 r2 with
      | none => none
      | some (mo, r3) =>
        match expectChar '/' r3 with
        | none => none
        | some r4 =>
          match parse2 r4 with
          | none => none
          | some (d, r5) =>
            match expectChar 'T' r5 with
            | none => none
            | some r6 =>
              match parse2 r6 with
              | none => none
              | some (h, r7) =>
                match expectChar ':' r7 with
                | none => none
                | some r8 =>
                  match parse2 r8 with
                  | none => none
                  | some (mi, r9) =>
                    match expectChar ':' r9 with
                    | none => none
                    | some r10 =>
                      match parse2 r10 with
                      | none => none
                      | some (se, r11) =>
                        if r11 = [] then
                          let y : ℤ := if yy ≤ 68 then 2000 + yy else 1900 + yy
                          if 1 ≤ mo ∧ mo ≤ 12 ∧ 1 ≤ d ∧ d ≤ daysInMonth y mo ∧
                             h ≤ 23 ∧ mi ≤ 59 ∧ se ≤ 59 then
                            some ⟨y, mo, d, h, mi, se⟩
                          else none
                        else none

/-- Zero-pad to two digits. -/
def pad2 (n : ℕ) : String := if n < 10 then "0" ++ toString n else toString n

/-- Zero-pad a year to four digits. -/
def pad4 (n : ℕ) : String :=
  if n < 10 then "000" ++ toString n
  else if n < 100 then "00" ++ toString n
  else if n < 1000 then "0" ++ toString n
  else toString n

/-- `datetime.isoformat()` (no fractional seconds). -/
def isoformat (t : PyDateTime) : String :=
  pad4 t.year.toNat ++ "-" ++ pad2 t.month ++ "-" ++ pad2 t.day ++ "T" ++
    pad2 t.hour ++ ":" ++ pad2 t.minute ++ ":" ++ pad2 t.second

/-! ### sms_list (source lines 278-331) -/

/-- Python slice `time[-3:-2]`: the single character three from the
end, or the empty string when the string is shorter than 3. -/
def pySliceL3 (t : String) : String :=
  if t.length ≥ 3 then String.mk ((t.toList.drop (t.length - 3)).take 1) else ""

/-- Python slice `t[-2:]`: the last two characters (the whole string
when shorter). -/
def pyTakeLast2 (t : String) : String :=
  String.mk (t.toList.drop (t.length - 2))

/-- Python slice `t[:-3]`: all but the last three characters. -/
def pyDropLast3 (t : String) : String :=
  String.mk (t.toList.take (t.length - 3))

/-- `str.strip('"')`: remove leading and trailing double quotes. -/
def stripQuotes (f : String) : String :=
  String.mk (((f.toList.dropWhile (· = '"')).reverse.dropWhile (· = '"')).reverse)

/-- The timestamp computation of `sms_list` (source lines 304-314):
the offset sign is `time[-3:-2]` and the offset `int(time[-2:])`; the
local timestamp `strptime(f"{date}T{time[:-3]}")` is shifted by
`15 * offset` minutes — subtracted for `+`, added for `-`; any other
sign raises, but only after the numeric conversions succeeded, in
source order. -/
def smsTimestamp (date time : String) : Except Err PyDateTime :=
  let sgn := pySliceL3 time
  match pyInt (pyTakeLast2 time) with
  | none => .error .valueError
  | some off =>
    match pyStrptimeYmdHms (date ++ "T" ++ pyDropLast3 time) with
    | none => .error .valueError
    | some t0 =>
      if sgn = "+" then .ok (subMinutes t0 (15 * off))
      else if sgn = "-" then .ok (subMinutes t0 (-(15 * off)))
      else .error .badSign

/-- One decoded SMS record. -/
structure SmsMsg where
  index : ℤ
  status : String
  sender : String
  timestamp : String
  data : String
deriving DecidableEq, Repr

/-- Decode one metadata/body line pair (source lines 296-322): the
metadata line after its 7-character prefix must split into exactly six
comma-separated quote-stripped fields, the timestamp is computed from
the date and time fields, and the index is coerced to an integer. -/
def decodeMsg (meta body : String) : Except Err SmsMsg :=
  match (splitComma (meta.toList.drop 7)).map (fun l => stripQuotes (String.mk l)) with
  | [idx, st, sd, _, date, time] =>
    match smsTimestamp date time with
    | .error e => .error e
    | .ok ts =>
      match pyInt idx with
      | none => .error .valueError
      | some i => .ok ⟨i, st, sd, isoformat ts, body⟩
  | _ => .error .valueError

/-- The pairwise walk over the response lines (source line 292): every
second entry starts a message; a trailing unpaired metadata line is an
`IndexError`. -/
def decodePairs : List String → Except Err (List SmsMsg)
  | [] => .ok []
  | [_] => .error .indexError
  | m :: b :: rest =>
    match decodeMsg m b with
    | .error e => .error e
    | .ok msg =>
      match decodePairs rest with
      | .error e => .error e
      | .ok l => .ok (msg :: l)

/-- What becomes of the `AT+CMGL` response inside the `try` block: a
failing `execute` propagates; a missing `data` key is a `KeyError`;
string data is iterated by index (empty: no messages; length 1: the
body index is out of range; otherwise the one-character metadata line
cannot be unpacked); list data is decoded pairwise. -/
def listDecode (r : Except EErr PyData) : Except Err (List SmsMsg) :=
  match r with
  | .error e => .error (.exec e)
  | .ok .pnone => .error .keyError
  | .ok (.pstr s) =>
    if s.length = 0 then .ok []
    else if s.length = 1 then .error .indexError
    else .error .valueError
  | .ok (.plist entries) => decodePairs entries

/-- The listing query of `sms_list`. -/
def listBody (status : String) (s : St) : Except Err (List SmsMsg) × St :=
  let p := runExec ("AT+CMGL=\"" ++ status ++ "\"") s
  (listDecode p.1, p.2)

/-- `LE910CXConn.sms_list` (source lines 278-331): read the current
format mode, switch to the requested mode when they differ (both
before the `try` block, so their failures propagate with no
restoration), run the listing, and in the `finally` block restore the
initially read mode, swallowing (logging) any failure of the
restoration itself so the caller sees the listing's own result or
error. -/
def sms_list (status fmtMode : String) (s : St) : Except Err (List SmsMsg) × St :=
  match sms_format none false s with
  | (.error e, s1) => (.error e, s1)
  | (.ok fm, s1) =>
    let prev := fm.mode
    match (if prev ≠ fmtMode then sms_format (some fmtMode) false s1 else (.ok fm, s1)) with
    | (.error e, s2) => (.error e, s2)
    | (.ok _, s2) =>
      let pb := listBody status s2
      let pr := sms_format (some prev) false pb.2
      (pb.1, pr.2)

/-! ## Theorems -/

/-- Appending further ready words does not change a scan whose prefix
produced only error-free reads. -/
theorem executeLoop_append (ws1 : List String) :
    ∀ (ws2 lines : List String) (res₀ o : Option RURes) (rest : List String),
    executeLoop ws1 lines res₀ = .ok (o, rest) →
    (∀ r, o = some r → r.error = none) →
    executeLoop (ws1 ++ ws2) lines res₀ = executeLoop ws2 rest o := by
  induction ws1 with
  | nil =>
    intro ws2 lines res₀ o rest h _
    simp only [executeLoop, Except.ok.injEq, Prod.mk.injEq] at h
    rw [List.nil_append, h.1, h.2]
  | cons w ws1 ih =>
    intro ws2 lines res₀ o rest h hfree
    rw [List.cons_append]
    cases hr : read_until w lines with
    | none =>
      simp only [executeLoop, hr] at h
      exact absurd h (by simp)
    | some p =>
      obtain ⟨⟨dat, err⟩, rest0⟩ := p
      cases err with
      | some e =>
        simp only [executeLoop, hr, Option.isSome_some, if_true,
          Except.ok.injEq, Prod.mk.injEq] at h
        exact absurd (hfree _ h.1.symm) (by simp)
      | none =>
        simp only [executeLoop, hr, Option.isSome_none, Bool.false_eq_true,
          if_false] at h ⊢
        exact ih ws2 rest0 (some ⟨dat, none⟩) o rest h hfree

/-- A scan hitting a line that matches the error pattern before any
line containing the ready word returns that error. -/
theorem read_untilGo_err (w l : String) (e : ErrInfo) (post : List String)
    (hl : errorRegexMatch l = some e) :
    ∀ (pre : List String) (acc : List String),
    (∀ p ∈ pre, errorRegexMatch p = none ∧ strHas p w = false) →
    read_untilGo w (pre ++ l :: post) acc = some (⟨none, some e⟩, post) := by
  intro pre
  induction pre with
  | nil => intro acc _; simp only [List.nil_append, read_untilGo, hl]
  | cons p ps ih =>
    intro acc hpre
    have hp := hpre p (by simp)
    simp only [List.cons_append, read_untilGo, hp.1, hp.2, Bool.false_eq_true,
      if_false]
    exact ih (p :: acc) (fun q hq => hpre q (by simp [hq]))

/-- Any single read yields either data or an error, never both. -/
theorem read_untilGo_excl (w : String) :
    ∀ (lines acc : List String) (r : RURes) (rest : List String),
    read_untilGo w lines acc = some (r, rest) → ¬(r.data.isSome ∧ r.error.isSome) := by
  intro lines
  induction lines with
  | nil => intro acc r rest h; simp [read_untilGo] at h
  | cons l ls ih =>
    intro acc r rest h
    cases hm : errorRegexMatch l with
    | some e =>
      simp only [read_untilGo, hm, Option.some.injEq, Prod.mk.injEq] at h
      rw [← h.1]
      simp
    | none =>
      by_cases hw : strHas l w
      · simp only [read_untilGo, hm, hw, if_true, Option.some.injEq,
          Prod.mk.injEq] at h
        rw [← h.1]
        simp
      · simp only [read_untilGo, hm, hw, Bool.false_eq_true, if_false] at h
        exact ih (l :: acc) r rest h

/-- Results carried out of the ready-word loop keep the exclusivity of
`read_until` results. -/
theorem executeLoop_excl (ws : List String) :
    ∀ (lines : List String) (res₀ o : Option RURes) (rest : List String),
    (∀ r, res₀ = some r → ¬(r.data.isSome ∧ r.error.isSome)) →
    executeLoop ws lines res₀ = .ok (o, rest) →
    ∀ r, o = some r → ¬(r.data.isSome ∧ r.error.isSome) := by
  induction ws with
  | nil =>
    intro lines res₀ o rest h0 h r hr
    simp only [executeLoop, Except.ok.injEq, Prod.mk.injEq] at h
    exact h0 r (h.1 ▸ hr)
  | cons w ws ih =>
    intro lines res₀ o rest h0 h r hr
    cases hru : read_until w lines with
    | none =>
      simp only [executeLoop, hru] at h
      exact absurd h (by simp)
    | some p =>
      obtain ⟨r0, rest0⟩ := p
      have hx : ¬(r0.data.isSome ∧ r0.error.isSome) :=
        read_untilGo_excl w lines [] r0 rest0 hru
      by_cases he : r0.error.isSome
      · simp only [executeLoop, hru, he, if_true, Except.ok.injEq,
          Prod.mk.injEq] at h
        have : some r0 = some r := h.1 ▸ hr ▸ rfl
        cases this
        exact hx
      · simp only [executeLoop, hru, he, Bool.false_eq_true, if_false] at h
        exact ih rest0 (some r0) o rest (fun r' hr' => by cases hr'; exact hx) h r hr

/-- The outcome returned by a completed scan is the result of the last
read it performed. -/
theorem executeLoop_lastRead (ws : List String) :
    ∀ (lines : List String) (res₀ : Option RURes) (r : RURes) (rest : List String),
    executeLoop ws lines res₀ = .ok (some r, rest) →
    (ws = [] ∧ res₀ = some r) ∨ (readsTrace ws lines).getLast? = some r := by
  induction ws with
  | nil =>
    intro lines res₀ r rest h
    simp only [executeLoop, Except.ok.injEq, Prod.mk.injEq] at h
    exact Or.inl ⟨rfl, h.1⟩
  | cons w ws ih =>
    intro lines res₀ r rest h
    cases hru : read_until w lines with
    | none =>
      simp only [executeLoop, hru] at h
      exact absurd h (by simp)
    | some p =>
      obtain ⟨r0, rest0⟩ := p
      by_cases he : r0.error.isSome
      · simp only [executeLoop, hru, he, if_true, Except.ok.injEq,
          Prod.mk.injEq, Option.some.injEq] at h
        obtain ⟨h1, h2⟩ := h
        subst h1
        refine Or.inr ?_
        simp [readsTrace, hru, he]
      · simp only [executeLoop, hru, he, Bool.false_eq_true, if_false] at h
        rcases ih rest0 (some r0) r rest h with ⟨hws, hres⟩ | hlast
        · subst hws
          cases hres
          refine Or.inr ?_
          simp [readsTrace, hru, he]
        · refine Or.inr ?_
          have hne : readsTrace ws rest0 ≠ [] := by
            intro hnil
            rw [hnil] at hlast
            simp at hlast
          simp only [readsTrace, hru, he, Bool.false_eq_true, if_false]
          cases ht : readsTrace ws rest0 with
          | nil => exact absurd ht hne
          | cons x xs =>
            rw [List.getLast?_cons_cons, ← ht]
            exact hlast

/-- Claim C1: for every execute call, when a line matching the error
pattern (bare `ERROR` or `+<TYPE> ERROR: <reason>`) is matched while
scanning for a ready word, the scan stops immediately — the outcome is
the same whatever ready words follow — the outcome's error field is
set, a ready-word match and an error are never both recorded for one
execution, and results of earlier ready-word matches are discarded. -/
theorem C1_error_stops_scan :
    (∀ (ws1 ws2 ws2' : List String) (w : String)
        (lines rest pre post : List String) (o : Option RURes) (l : String)
        (e : ErrInfo),
      executeLoop ws1 lines none = .ok (o, rest) →
      (∀ r, o = some r → r.error = none) →
      rest = pre ++ l :: post →
      (∀ p ∈ pre, errorRegexMatch p = none ∧ strHas p w = false) →
      errorRegexMatch l = some e →
      execute (ws1 ++ w :: ws2) lines false = .ok (some ⟨none, some e⟩) ∧
        execute (ws1 ++ w :: ws2) lines true = .error (.cmdError e) ∧
        execute (ws1 ++ w :: ws2) lines false = execute (ws1 ++ w :: ws2') lines false) ∧
    (∀ (ws lines : List String) (ro : Bool) (r : RURes),
      execute ws lines ro = .ok (some r) → ¬(r.data.isSome ∧ r.error.isSome)) ∧
    errorRegexMatch "ERROR" = some .generic ∧
    errorRegexMatch "+CME ERROR: unknown" = some (.coded "CME" "unknown") := by
  refine ⟨?_, ?_, by decide, by decide⟩
  · intro ws1 ws2 ws2' w lines rest pre post o l e h1 h2 hrest hpre hl
    have hread : read_until w rest = some (⟨none, some e⟩, post) := by
      rw [hrest]
      exact read_untilGo_err w l e post hl pre [] hpre
    have hloop : ∀ ws2 : List String,
        executeLoop (ws1 ++ w :: ws2) lines none
          = .ok (some ⟨none, some e⟩, post) := by
      intro ws2
      rw [executeLoop_append ws1 (w :: ws2) lines none o rest h1 h2]
      simp [executeLoop, hread]
    refine ⟨?_, ?_, ?_⟩
    · rw [execute, hloop ws2]
      rfl
    · rw [execute, hloop ws2]
      rfl
    · rw [execute, hloop ws2, execute, hloop ws2']
  · intro ws lines ro r h
    rw [execute] at h
    cases hl : executeLoop ws lines none with
    | error e => rw [hl] at h; exact absurd h (by simp)
    | ok p =>
      obtain ⟨o, rest⟩ := p
      rw [hl] at h
      have ho : o = some r := by
        cases ro with
        | false => simpa using h
        | true =>
          cases o with
          | none => exact absurd h (by simp)
          | some r' =>
            cases herr : r'.error with
            | some e => simp [herr] at h
            | none => simp only [herr] at h; simpa using h
      exact executeLoop_excl ws lines none o rest (by intro r' hr'; cases hr') hl r ho

/-- Witness for C1 at a concrete execution: the first ready word
matches with data, the scan for the second hits a vendor-coded error
line, and the two trailing ready words are never searched. -/
theorem C1_witness :
    execute ["OK", "OK", "FOO"] ["d", "OK", "+CME ERROR: unknown", "x"] false
      = .ok (some ⟨none, some (.coded "CME" "unknown")⟩) :=
  (C1_error_stops_scan.1 ["OK"] ["FOO"] ["BAR"] "OK"
    ["d", "OK", "+CME ERROR: unknown", "x"] ["+CME ERROR: unknown", "x"] []
    ["x"] (some ⟨some ["d"], none⟩) "+CME ERROR: unknown"
    (.coded "CME" "unknown") (by decide)
    (fun r hr => by cases hr; rfl) rfl (fun p hp => absurd hp (by simp))
    (by decide)).1

/-- Claim C10 counterexample: with an empty `ready_words` list and
`raise_on_error` false, the call does return — the conjunction
`raise_on_error and "error" in res` short-circuits, so the claimed
failure of the post-exchange error check does not occur and `None` is
returned. -/
theorem C10_counterexample :
    execute [] ["OK"] false = .ok none ∧
      ∀ er : ExecErr, execute [] ["OK"] false ≠ .error er := by
  refine ⟨rfl, ?_⟩
  intro er h
  rw [show execute [] ["OK"] false = Except.ok none from rfl] at h
  exact Except.noConfusion h

/-- Claim C10 (amended): with an empty `ready_words` list no read is
performed and no outcome exists; the post-exchange error check then
raises a `TypeError` when `raise_on_error` is true (the default), while
with `raise_on_error` false the `None` placeholder is returned instead
of an outcome.  For every call that returns an outcome, that outcome is
the result of the last read performed (so the list was non-empty). -/
theorem C10_empty_ready_words :
    (∀ lines : List String,
      readsTrace [] lines = [] ∧
      execute [] lines true = .error .typeErr ∧
      execute [] lines false = .ok none) ∧
    (∀ (ws lines : List String) (ro : Bool) (r : RURes),
      execute ws lines ro = .ok (some r) →
      (readsTrace ws lines).getLast? = some r ∧ ws ≠ []) ∧
    (∀ (lines : List String) (ro : Bool) (r : RURes),
      execute [] lines ro ≠ .ok (some r)) := by
  have key : ∀ (ws lines : List String) (ro : Bool) (r : RURes),
      execute ws lines ro = .ok (some r) →
      (readsTrace ws lines).getLast? = some r ∧ ws ≠ [] := by
    intro ws lines ro r h
    rw [execute] at h
    cases hl : executeLoop ws lines none with
    | error e => rw [hl] at h; exact absurd h (by simp)
    | ok p =>
      obtain ⟨o, rest⟩ := p
      rw [hl] at h
      have ho : o = some r := by
        cases ro with
        | false => simpa using h
        | true =>
          cases o with
          | none => exact absurd h (by simp)
          | some r' =>
            cases herr : r'.error with
            | some e => simp [herr] at h
            | none => simp only [herr] at h; simpa using h
      subst ho
      rcases executeLoop_lastRead ws lines none r rest hl with ⟨hws, hres⟩ | hlast
      · exact absurd hres (by simp)
      · refine ⟨hlast, ?_⟩
        intro hnil
        subst hnil
        simp only [executeLoop, Except.ok.injEq, Prod.mk.injEq] at hl
        exact absurd hl.1 (by simp)
  refine ⟨?_, key, ?_⟩
  · intro lines
    exact ⟨rfl, rfl, rfl⟩
  · intro lines ro r h
    exact absurd rfl (key [] lines ro r h).2

/-- Witness for the amended C10 at a concrete execution: a successful
single-ready-word call returns the result of its one (and last)
read. -/
theorem C10_witness :
    (readsTrace ["OK"] ["a", "OK"]).getLast? = some ⟨some ["a"], none⟩ :=
  (C10_empty_ready_words.2.1 ["OK"] ["a", "OK"] true ⟨some ["a"], none⟩ (by decide)).1

/-- Claim C2: each stateful setting accessor, called with the desired
value equal to the value just read and `force` unset, returns the read
value and issues no write: the trace holds exactly the one read
command and the script is otherwise untouched. -/
theorem C2_get_or_set_idempotent :
    (∀ (c : Char) (rest : List (Except EErr PyData)),
      (c = '0' ∨ c = '1' ∨ c = '2') →
      error_config (some (meModeName c)) false
          ⟨.ok (.pstr ("+CMEE: " ++ String.mk [c])) :: rest, []⟩
        = (.ok ⟨meModeName c⟩, ⟨rest, ["AT+CMEE?"]⟩)) ∧
    (∀ (c : Char) (rest : List (Except EErr PyData)),
      (c = '0' ∨ c = '1') →
      sms_format (some (smsModeName c)) false
          ⟨.ok (.pstr ("+CMGF: " ++ String.mk [c])) :: rest, []⟩
        = (.ok ⟨smsModeName c⟩, ⟨rest, ["AT+CMGF?"]⟩)) ∧
    (∀ (c : Char) (rest : List (Except EErr PyData)),
      (c = '0' ∨ c = '1') →
      gnss_session (some (pyBoolOfDigit c)) false
          ⟨.ok (.pstr ("$GPSP: " ++ String.mk [c])) :: rest, []⟩
        = (.ok ⟨pyBoolOfDigit c⟩, ⟨rest, ["AT$GPSP?"]⟩)) ∧
    (∀ (m a b c d e f : Char) (rest : List (Except EErr PyData)),
      (m = '0' ∨ m = '1' ∨ m = '2' ∨ m = '3') →
      (a = '0' ∨ a = '1') → (b = '0' ∨ b = '1') → (c = '0' ∨ c = '1') →
      (d = '0' ∨ d = '1') → (e = '0' ∨ e = '1') → (f = '0' ∨ f = '1') →
      gnss_nmea_data_config (some (nmeaModeName m)) (pyBoolOfDigit a)
          (pyBoolOfDigit b) (pyBoolOfDigit c) (pyBoolOfDigit d)
          (pyBoolOfDigit e) (pyBoolOfDigit f) false
          ⟨.ok (.pstr ("$GPSNMUN: " ++
              String.mk [m, ',', a, ',', b, ',', c, ',', d, ',', e, ',', f])) :: rest, []⟩
        = (.ok ⟨nmeaModeName m, pyBoolOfDigit a, pyBoolOfDigit b, pyBoolOfDigit c,
            pyBoolOfDigit d, pyBoolOfDigit e, pyBoolOfDigit f⟩,
           ⟨rest, ["AT$GPSNMUN?"]⟩)) := by
  refine ⟨?_, ?_, ?_, ?_⟩
  · intro c rest hc
    rcases hc with rfl | rfl | rfl <;> rfl
  · intro c rest hc
    rcases hc with rfl | rfl <;> rfl
  · intro c rest hc
    rcases hc with rfl | rfl <;> rfl
  · intro m a b c d e f rest hm ha hb hc hd he hf
    rcases hm with rfl | rfl | rfl | rfl <;> rcases ha with rfl | rfl <;>
      rcases hb with rfl | rfl <;> rcases hc with rfl | rfl <;>
      rcases hd with rfl | rfl <;> rcases he with rfl | rfl <;>
      rcases hf with rfl | rfl <;> rfl

/-- Witness for C2: all four accessors at concrete idempotent calls. -/
theorem C2_witness :
    error_config (some "numeric") false ⟨[.ok (.pstr "+CMEE: 1")], []⟩
      = (.ok ⟨"numeric"⟩, ⟨[], ["AT+CMEE?"]⟩) ∧
    sms_format (some "TXT") false ⟨[.ok (.pstr "+CMGF: 1")], []⟩
      = (.ok ⟨"TXT"⟩, ⟨[], ["AT+CMGF?"]⟩) ∧
    gnss_session (some true) false ⟨[.ok (.pstr "$GPSP: 1")], []⟩
      = (.ok ⟨true⟩, ⟨[], ["AT$GPSP?"]⟩) ∧
    gnss_nmea_data_config (some "second_format") false false false false true false false
        ⟨[.ok (.pstr "$GPSNMUN: 2,0,0,0,0,1,0")], []⟩
      = (.ok ⟨"second_format", false, false, false, false, true, false⟩,
         ⟨[], ["AT$GPSNMUN?"]⟩) :=
  ⟨C2_get_or_set_idempotent.1 '1' [] (by decide),
   C2_get_or_set_idempotent.2.1 '1' [] (by decide),
   C2_get_or_set_idempotent.2.2.1 '1' [] (by decide),
   C2_get_or_set_idempotent.2.2.2 '2' '0' '0' '0' '0' '1' '0' [] (by decide)
     (by decide) (by decide) (by decide) (by decide) (by decide) (by decide)⟩

/-- Claim C3 counterexample: `sms_format` with `force=true` issues no
read at all — the one command in the trace is the write, refuting the
claim that every accessor reads first for every argument
combination. -/
theorem C3_counterexample :
    sms_format (some "TXT") true ⟨[.ok .pnone], []⟩
      = (.ok ⟨"TXT"⟩, ⟨[], ["AT+CMGF=1"]⟩) ∧
    "AT+CMGF?" ∉ (sms_format (some "TXT") true ⟨[.ok .pnone], []⟩).2.trace :=
  ⟨rfl, by decide⟩

/-- Claim C3 (amended): `error_config`, `gnss_session` and
`gnss_nmea_data_config` issue their read query first for every
combination of arguments and every transport behaviour, and so does
`sms_format` whenever `force` is unset; with `force` set, `sms_format`
issues no read at all. -/
theorem C3_read_query_first :
    (∀ (mode : Option String) (force : Bool) (env : List (Except EErr PyData)),
      ((error_config mode force ⟨env, []⟩).2.trace).head? = some "AT+CMEE?") ∧
    (∀ (status : Option Bool) (force : Bool) (env : List (Except EErr PyData)),
      ((gnss_session status force ⟨env, []⟩).2.trace).head? = some "AT$GPSP?") ∧
    (∀ (mode : Option String) (g1 g2 g3 g4 g5 g6 : Bool) (force : Bool)
        (env : List (Except EErr PyData)),
      ((gnss_nmea_data_config mode g1 g2 g3 g4 g5 g6 force ⟨env, []⟩).2.trace).head?
        = some "AT$GPSNMUN?") ∧
    (∀ (mode : Option String) (env : List (Except EErr PyData)),
      ((sms_format mode false ⟨env, []⟩).2.trace).head? = some "AT+CMGF?") ∧
    (∀ (mode : Option String) (env : List (Except EErr PyData)),
      "AT+CMGF?" ∉ (sms_format mode true ⟨env, []⟩).2.trace) := by
  refine ⟨?_, ?_, ?_, ?_, ?_⟩
  · intro mode force env
    rcases env with _ | ⟨r, env⟩
    · rfl
    · rcases r with e | d
      · rfl
      · rcases d with _ | s | l
        · rfl
        · rcases hcm : cmeeMatch s with _ | c
          · simp [error_config, runExec, dataStr, hcm]
          · rcases mode with _ | m
            · simp [error_config, runExec, dataStr, hcm]
            · by_cases hmem : m ∈ meModeNames
              · by_cases hcond : meModeName c ≠ m ∨ force = true
                · rcases env with _ | ⟨e2 | d2, env⟩ <;>
                    simp [error_config, runExec, dataStr, hcm, hmem, hcond]
                · simp [error_config, runExec, dataStr, hcm, hmem, hcond]
              · simp [error_config, runExec, dataStr, hcm, hmem]
        · rfl
  · intro status force env
    rcases env with _ | ⟨r, env⟩
    · rfl
    · rcases r with e | d
      · rfl
      · rcases d with _ | s | l
        · rfl
        · rcases hcm : gpspMatch s with _ | c
          · simp [gnss_session, runExec, dataStr, hcm]
          · rcases status with _ | b
            · simp [gnss_session, runExec, dataStr, hcm]
            · by_cases hcond : b ≠ pyBoolOfDigit c ∨ force = true
              · rcases env with _ | ⟨e2 | d2, env⟩ <;>
                  simp [gnss_session, runExec, dataStr, hcm, hcond]
              · simp [gnss_session, runExec, dataStr, hcm, hcond]
        · rfl
  · intro mode g1 g2 g3 g4 g5 g6 force env
    rcases env with _ | ⟨r, env⟩
    · rfl
    · rcases r with e | d
      · rfl
      · rcases d with _ | s | l
        · rfl
        · rcases hcm : gpsnmunMatch s with _ | ⟨m, a, b, c, dd, ee, f⟩
          · simp [gnss_nmea_data_config, runExec, dataStr, hcm]
          · rcases mode with _ | md
            · simp [gnss_nmea_data_config, runExec, dataStr, hcm]
            · by_cases hmem : md ∈ nmeaModeNames
              · by_cases hcond : nmeaModeName m ≠ md ∨ pyBoolOfDigit a ≠ g1 ∨
                  pyBoolOfDigit b ≠ g2 ∨ pyBoolOfDigit c ≠ g3 ∨
                  pyBoolOfDigit dd ≠ g4 ∨ pyBoolOfDigit ee ≠ g5 ∨
                  pyBoolOfDigit f ≠ g6 ∨ force = true
                · rcases env with _ | ⟨e2 | d2, env⟩ <;>
                    simp [gnss_nmea_data_config, runExec, dataStr, hcm, hmem, hcond]
                · simp [gnss_nmea_data_config, runExec, dataStr, hcm, hmem, hcond]
              · simp [gnss_nmea_data_config, runExec, dataStr, hcm, hmem]
        · rfl
  · intro mode env
    rcases env with _ | ⟨r, env⟩
    · rfl
    · rcases r with e | d
      · rfl
      · rcases d with _ | s | l
        · rfl
        · rcases hcm : cmgfMatch s with _ | c
          · simp [sms_format, runExec, dataStr, hcm]
          · rcases mode with _ | m
            · simp [sms_format, runExec, dataStr, hcm]
            · by_cases hmem : strUpper m ∈ ["PUD", "TXT"]
              · by_cases hcond : strUpper m ≠ smsModeName c
                · rcases env with _ | ⟨e2 | d2, env⟩ <;>
                    simp [sms_format, runExec, dataStr, hcm, hmem, hcond]
                · simp [sms_format, runExec, dataStr, hcm, hmem, hcond]
              · simp [sms_format, runExec, dataStr, hcm, hmem]
        · rfl
  · intro mode env
    rcases mode with _ | m
    · simp [sms_format]
    · by_cases hmem : strUpper m ∈ ["PUD", "TXT"]
      · by_cases hp : strUpper m = "PUD"
        · rcases env with _ | ⟨e2 | d2, env⟩ <;>
            simp [sms_format, runExec, hmem, smsModeVal, hp]
        · rcases env with _ | ⟨e2 | d2, env⟩ <;>
            simp [sms_format, runExec, hmem, smsModeVal, hp]
      · simp [sms_format, hmem]

/-- Witness for the amended C3: concrete reads-first calls for the
three always-reading accessors, `sms_format` reading when unforced,
and a forced `sms_format` call whose trace shows no read. -/
theorem C3_witness :
    ((error_config (some "verbose") true ⟨[], []⟩).2.trace).head? = some "AT+CMEE?" ∧
    ((gnss_session (some false) true ⟨[.ok (.pstr "$GPSP: 1"), .ok .pnone], []⟩).2.trace).head?
      = some "AT$GPSP?" ∧
    ((gnss_nmea_data_config (some "disabled") false false false false false false true
        ⟨[.ok (.pstr "$GPSNMUN: 2,0,0,0,0,1,0"), .ok .pnone], []⟩).2.trace).head?
      = some "AT$GPSNMUN?" ∧
    ((sms_format (some "PUD") false ⟨[.ok (.pstr "+CMGF: 1"), .ok .pnone], []⟩).2.trace).head?
      = some "AT+CMGF?" ∧
    "AT+CMGF?" ∉ (sms_format (some "pud") true ⟨[.ok .pnone], []⟩).2.trace :=
  ⟨C3_read_query_first.1 (some "verbose") true [],
   C3_read_query_first.2.1 (some false) true [.ok (.pstr "$GPSP: 1"), .ok .pnone],
   C3_read_query_first.2.2.1 (some "disabled") false false false false false false true
     [.ok (.pstr "$GPSNMUN: 2,0,0,0,0,1,0"), .ok .pnone],
   C3_read_query_first.2.2.2.1 (some "PUD") [.ok (.pstr "+CMGF: 1"), .ok .pnone],
   C3_read_query_first.2.2.2.2 (some "pud") [.ok .pnone]⟩

/-- Claim C4 counterexample: on an unmatched response `imei` (and
`sms_format`) fail with the `AttributeError` of calling a method on
`None`, not with the `InvalidResponseException` that plays the
`ProtocolViolation` role — refuting the claim that every decoder fails
with a ProtocolViolation-type error. -/
theorem C4_counterexample :
    (imei ⟨[.ok (.pstr "GARBLED")], []⟩).1 = .error .attributeError ∧
    (sms_format none false ⟨[.ok (.pstr "GARBLED")], []⟩).1 = .error .attributeError ∧
    Err.attributeError ≠ Err.invalidResponse :=
  ⟨rfl, rfl, by decide⟩

/-- Claim C4 (amended): on response data that does not match the
decoder's expected shape, `error_config`, `gnss_session`,
`gnss_nmea_data_config` and `gnss_location` fail with the
`ProtocolViolation`-type `InvalidResponseException`, while `imei` and
`sms_format` fail with an `AttributeError` from the unguarded match
object; in every case the call fails and no defaulted or partial value
is returned. -/
theorem C4_decode_mismatch_fatal :
    (∀ (s : String) (rest : List (Except EErr PyData)),
      cmeeMatch s = none →
      (error_config none false ⟨.ok (.pstr s) :: rest, []⟩).1
        = .error .invalidResponse) ∧
    (∀ (s : String) (rest : List (Except EErr PyData)),
      gpspMatch s = none →
      (gnss_session none false ⟨.ok (.pstr s) :: rest, []⟩).1
        = .error .invalidResponse) ∧
    (∀ (s : String) (rest : List (Except EErr PyData)),
      gpsnmunMatch s = none →
      (gnss_nmea_data_config none false false false false false false false
          ⟨.ok (.pstr s) :: rest, []⟩).1 = .error .invalidResponse) ∧
    (∀ (s : String) (rest : List (Except EErr PyData)) (dd : Bool),
      gpsacpMatch s = none →
      (gnss_location dd ⟨.ok (.pstr s) :: rest, []⟩).1
        = .error .invalidResponse) ∧
    (∀ (s : String) (rest : List (Except EErr PyData)),
      gsnMatch s = none →
      (imei ⟨.ok (.pstr s) :: rest, []⟩).1 = .error .attributeError) ∧
    (∀ (s : String) (rest : List (Except EErr PyData)),
      cmgfMatch s = none →
      (sms_format none false ⟨.ok (.pstr s) :: rest, []⟩).1
        = .error .attributeError) := by
  refine ⟨?_, ?_, ?_, ?_, ?_, ?_⟩
  · intro s rest h
    simp [error_config, runExec, dataStr, h]
  · intro s rest h
    simp [gnss_session, runExec, dataStr, h]
  · intro s rest h
    simp [gnss_nmea_data_config, runExec, dataStr, h]
  · intro s rest dd h
    simp [gnss_location, runExec, dataStr, h]
  · intro s rest h
    simp [imei, runExec, dataStr, h]
  · intro s rest h
    simp [sms_format, runExec, dataStr, h]

/-- Witness for the amended C4: each decoder fed garbage response
data fails with its respective error. -/
theorem C4_witness :
    (error_config none false ⟨[.ok (.pstr "junk")], []⟩).1 = .error .invalidResponse ∧
    (gnss_session none false ⟨[.ok (.pstr "junk")], []⟩).1 = .error .invalidResponse ∧
    (gnss_nmea_data_config none false false false false false false false
        ⟨[.ok (.pstr "junk")], []⟩).1 = .error .invalidResponse ∧
    (gnss_location true ⟨[.ok (.pstr "junk")], []⟩).1 = .error .invalidResponse ∧
    (imei ⟨[.ok (.pstr "junk")], []⟩).1 = .error .attributeError ∧
    (sms_format none false ⟨[.ok (.pstr "junk")], []⟩).1 = .error .attributeError :=
  ⟨C4_decode_mismatch_fatal.1 "junk" [] rfl,
   C4_decode_mismatch_fatal.2.1 "junk" [] rfl,
   C4_decode_mismatch_fatal.2.2.1 "junk" [] rfl,
   C4_decode_mismatch_fatal.2.2.2.1 "junk" [] true rfl,
   C4_decode_mismatch_fatal.2.2.2.2.1 "junk" [] rfl,
   C4_decode_mismatch_fatal.2.2.2.2.2 "junk" [] rfl⟩

/-- Claim C9: the boolean GNSS-session status and all six NMEA stream
flags are decoded by parsing the digit as an integer and then casting
to boolean, so field value `0` decodes to `false` and `1` to `true`. -/
theorem C9_bool_via_int :
    (∀ (c : Char) (rest : List (Except EErr PyData)),
      (c = '0' ∨ c = '1') →
      (gnss_session none false
          ⟨.ok (.pstr ("$GPSP: " ++ String.mk [c])) :: rest, []⟩).1
        = .ok ⟨decide (c = '1')⟩) ∧
    (∀ (m a b c d e f : Char) (rest : List (Except EErr PyData)),
      (m = '0' ∨ m = '1' ∨ m = '2' ∨ m = '3') →
      (a = '0' ∨ a = '1') → (b = '0' ∨ b = '1') → (c = '0' ∨ c = '1') →
      (d = '0' ∨ d = '1') → (e = '0' ∨ e = '1') → (f = '0' ∨ f = '1') →
      (gnss_nmea_data_config none false false false false false false false
          ⟨.ok (.pstr ("$GPSNMUN: " ++
              String.mk [m, ',', a, ',', b, ',', c, ',', d, ',', e, ',', f])) :: rest, []⟩).1
        = .ok ⟨nmeaModeName m, decide (a = '1'), decide (b = '1'), decide (c = '1'),
            decide (d = '1'), decide (e = '1'), decide (f = '1')⟩) := by
  refine ⟨?_, ?_⟩
  · intro c rest hc
    rcases hc with rfl | rfl <;> rfl
  · intro m a b c d e f rest hm ha hb hc hd he hf
    rcases hm with rfl | rfl | rfl | rfl <;> rcases ha with rfl | rfl <;>
      rcases hb with rfl | rfl <;> rcases hc with rfl | rfl <;>
      rcases hd with rfl | rfl <;> rcases he with rfl | rfl <;>
      rcases hf with rfl | rfl <;> rfl

/-- Witness for C9: `"0"` fields decode to `false` and `"1"` fields to
`true` on concrete responses. -/
theorem C9_witness :
    (gnss_session none false ⟨[.ok (.pstr "$GPSP: 0")], []⟩).1 = .ok ⟨false⟩ ∧
    (gnss_session none false ⟨[.ok (.pstr "$GPSP: 1")], []⟩).1 = .ok ⟨true⟩ ∧
    (gnss_nmea_data_config none false false false false false false false
        ⟨[.ok (.pstr "$GPSNMUN: 2,0,1,0,0,1,0")], []⟩).1
      = .ok ⟨"second_format", false, true, false, false, true, false⟩ :=
  ⟨C9_bool_via_int.1 '0' [] (by decide),
   C9_bool_via_int.1 '1' [] (by decide),
   C9_bool_via_int.2 '2' '0' '1' '0' '0' '1' '0' [] (by decide) (by decide)
     (by decide) (by decide) (by decide) (by decide) (by decide)⟩

/-- Claim C5: whenever the `$GPSACP` response matches the pattern with
a fix code of 0 (invalid) or 1 (none), `gnss_location` fails with
`NoFix` — before any other field is parsed, as the concrete no-fix
response with all other fields empty shows (parsing them would raise a
type error, yet the outcome is `NoFix`) — and a `GnssLocation` value
is never produced. -/
theorem C5_no_fix_short_circuit :
    (∀ (s : String) (rest : List (Except EErr PyData)) (dd : Bool) (g : GpsacpM),
      gpsacpMatch s = some g →
      (g.fix = '0' ∨ g.fix = '1') →
      gnss_location dd ⟨.ok (.pstr s) :: rest, []⟩
        = (.error .noFix, ⟨rest, ["AT$GPSACP"]⟩)) ∧
    (∀ dd : Bool,
      gnss_location dd ⟨[.ok (.pstr "$GPSACP: ,,,,,1,,,,,,")], []⟩
        = (.error .noFix, ⟨[], ["AT$GPSACP"]⟩)) ∧
    (∀ (s : String) (rest : List (Except EErr PyData)) (dd : Bool)
        (g : GpsacpM) (r : GnssRet),
      gpsacpMatch s = some g →
      (g.fix = '0' ∨ g.fix = '1') →
      (gnss_location dd ⟨.ok (.pstr s) :: rest, []⟩).1 ≠ .ok r) := by
  have main : ∀ (s : String) (rest : List (Except EErr PyData)) (dd : Bool)
      (g : GpsacpM),
      gpsacpMatch s = some g →
      (g.fix = '0' ∨ g.fix = '1') →
      gnss_location dd ⟨.ok (.pstr s) :: rest, []⟩
        = (.error .noFix, ⟨rest, ["AT$GPSACP"]⟩) := by
    intro s rest dd g hm hfix
    simp only [gnss_location, runExec, dataStr, hm]
    rw [if_pos hfix]
    rfl
  refine ⟨main, ?_, ?_⟩
  · intro dd
    exact main "$GPSACP: ,,,,,1,,,,,," [] dd
      ⟨none, none, none, none, none, '1', none, none, none, none, none, none⟩
      rfl (Or.inr rfl)
  · intro s rest dd g r hm hfix
    rw [main s rest dd g hm hfix]
    simp

/-- Witness for C5 at a concrete invalid-fix response. -/
theorem C5_witness :
    gnss_location false ⟨[.ok (.pstr "$GPSACP: ,,,,,0,,,,,,")], []⟩
      = (.error .noFix, ⟨[], ["AT$GPSACP"]⟩) :=
  C5_no_fix_short_circuit.1 "$GPSACP: ,,,,,0,,,,,," [] false
    ⟨none, none, none, none, none, '0', none, none, none, none, none, none⟩
    rfl (Or.inl rfl)

/-- Claim C6: decoding the documented `$GPSACP` response
`093446.000,5702.1608N,00956.1064E,1.4,-30.6,3,0.0,0.0,0.0,140622,04,04`
yields fix `3D`, `date_utc = 2022-06-14` (two-digit year prefixed with
`20`), `time_utc = 09:34:46`, four GPS and four GLONASS satellites;
with decimal degrees requested the latitude is exactly
`57 + 2.1608/60 ≈ 57.036013` (and the longitude `9 + 56.1064/60`),
while without the conversion the latitude and longitude are returned
as the original encoded strings. -/
theorem C6_gnss_concrete_decode :
    (∃ r : GnssRet,
      (gnss_location true ⟨[.ok (.pstr
          "$GPSACP: 093446.000,5702.1608N,00956.1064E,1.4,-30.6,3,0.0,0.0,0.0,140622,04,04")],
          []⟩).1 = .ok r ∧
      r.fix = "3D" ∧ r.date_utc = "2022-06-14" ∧ r.time_utc = "09:34:46" ∧
      r.nsat_gps = 4 ∧ r.nsat_glonass = 4 ∧ r.hdop = 7/5 ∧ r.alt = -153/5 ∧
      r.lat = .dd (57 + (21608 : ℚ)/10000/60) ∧
      r.lon = .dd (9 + (561064 : ℚ)/10000/60)) ∧
    |57 + (21608 : ℚ)/10000/60 - 57036013/1000000| < 1/1000000 ∧
    (∃ r : GnssRet,
      (gnss_location false ⟨[.ok (.pstr
          "$GPSACP: 093446.000,5702.1608N,00956.1064E,1.4,-30.6,3,0.0,0.0,0.0,140622,04,04")],
          []⟩).1 = .ok r ∧
      r.lat = .raw (some "5702.1608N") ∧ r.lon = .raw (some "00956.1064E")) := by
  refine ⟨⟨_, rfl, rfl, rfl, rfl, by decide, by decide, ?_, ?_, ?_, ?_⟩,
    by
      rw [show (57 + (21608 : ℚ)/10000/60 - 57036013/1000000) = 1/3000000 from by norm_num,
        abs_of_pos (by norm_num : (0 : ℚ) < 1/3000000)]
      norm_num, ⟨_, rfl, rfl, rfl⟩⟩ <;>
  · first
    | rfl
    | norm_num [LatLonVal.dd.injEq, digitsToNat, digitVal, List.takeWhile, List.foldl,
        (by decide : ('0' : Char).toNat = 48), (by decide : ('1' : Char).toNat = 49),
        (by decide : ('2' : Char).toNat = 50), (by decide : ('3' : Char).toNat = 51),
        (by decide : ('4' : Char).toNat = 52), (by decide : ('5' : Char).toNat = 53),
        (by decide : ('6' : Char).toNat = 54), (by decide : ('7' : Char).toNat = 55),
        (by decide : ('8' : Char).toNat = 56), (by decide : ('9' : Char).toNat = 57),
        (by decide : ('0' : Char).isDigit = true), (by decide : ('1' : Char).isDigit = true),
        (by decide : ('2' : Char).isDigit = true), (by decide : ('3' : Char).isDigit = true),
        (by decide : ('4' : Char).isDigit = true), (by decide : ('5' : Char).isDigit = true),
        (by decide : ('6' : Char).isDigit = true), (by decide : ('7' : Char).isDigit = true),
        (by decide : ('8' : Char).isDigit = true), (by decide : ('9' : Char).isDigit = true),
        (by decide : ('.' : Char).isDigit = false)]

/-- Claim C7: the SMS timestamp is decoded by parsing the local
date/time (the time with its last three characters removed) and then
subtracting, for sign `+`, or adding, for sign `-`, 15 × offset
minutes, where the sign is `time[-3:-2]` and the two-digit offset
`time[-2:]`; any other sign is a fatal decode error.  In particular
date `21/11/16` with time `14:10:00+04` decodes to the UTC instant
`2021-11-16T13:10:00`. -/
theorem C7_sms_timestamp :
    (∀ (date time : String) (off : ℤ) (t0 : PyDateTime),
      pyInt (pyTakeLast2 time) = some off →
      pyStrptimeYmdHms (date ++ "T" ++ pyDropLast3 time) = some t0 →
      (pySliceL3 time = "+" →
        smsTimestamp date time = .ok (subMinutes t0 (15 * off))) ∧
      (pySliceL3 time = "-" →
        smsTimestamp date time = .ok (subMinutes t0 (-(15 * off)))) ∧
      (pySliceL3 time ≠ "+" → pySliceL3 time ≠ "-" →
        smsTimestamp date time = .error .badSign)) ∧
    smsTimestamp "21/11/16" "14:10:00+04" = .ok ⟨2021, 11, 16, 13, 10, 0⟩ ∧
    isoformat ⟨2021, 11, 16, 13, 10, 0⟩ = "2021-11-16T13:10:00" ∧
    decodeMsg "+CMGL: 1,\"REC READ\",\"+4520123456\",,\"21/11/16\",\"14:10:00+04\"" "Hi"
      = .ok ⟨1, "REC READ", "+4520123456", "2021-11-16T13:10:00", "Hi"⟩ ∧
    smsTimestamp "21/11/16" "00:30:00+04" = .ok ⟨2021, 11, 15, 23, 30, 0⟩ ∧
    smsTimestamp "21/11/16" "14:10:00-04" = .ok ⟨2021, 11, 16, 15, 10, 0⟩ := by
  refine ⟨?_, by decide, by decide, by decide, by decide, by decide⟩
  intro date time off t0 h1 h2
  refine ⟨?_, ?_, ?_⟩
  · intro hs
    simp [smsTimestamp, h1, h2, hs]
  · intro hs
    simp [smsTimestamp, h1, h2, hs]
  · intro hs1 hs2
    simp [smsTimestamp, h1, h2, hs1, hs2]

/-- Witness for C7: a time field whose offset sign is `*` is a fatal
decode error even though offset and local timestamp parse. -/
theorem C7_witness :
    smsTimestamp "21/11/16" "14:10:00*04" = .error .badSign :=
  (C7_sms_timestamp.1 "21/11/16" "14:10:00*04" 4 ⟨2021, 11, 16, 14, 10, 0⟩
    (by decide) (by decide)).2.2 (by decide) (by decide)

/-- Claim C8: the format mode read at the start of `sms_list` is
restored on the way out even when the listing fails (the restoration
read appears in the trace after a failing list command); a failure of
the restoration itself is swallowed, so the caller observes the
original listing result or error, independently of how the transport
behaves after the listing; and the restoration writes back the
initially read mode when the mailbox is found changed. -/
theorem C8_sms_list_restore :
    (∀ (listR : Except EErr PyData) (rest rest' : List (Except EErr PyData)),
      (sms_list "ALL" "TXT" ⟨.ok (.pstr "+CMGF: 1") :: listR :: rest, []⟩).1
        = (sms_list "ALL" "TXT" ⟨.ok (.pstr "+CMGF: 1") :: listR :: rest', []⟩).1 ∧
      (sms_list "ALL" "TXT" ⟨.ok (.pstr "+CMGF: 1") :: listR :: rest, []⟩).1
        = listDecode listR) ∧
    (∀ e : EErr,
      sms_list "ALL" "TXT" ⟨[.ok (.pstr "+CMGF: 1"), .error e], []⟩
        = (.error (.exec e), ⟨[], ["AT+CMGF?", "AT+CMGL=\"ALL\"", "AT+CMGF?"]⟩)) ∧
    (∀ (entries : List String) (e : EErr),
      (sms_list "ALL" "TXT"
          ⟨[.ok (.pstr "+CMGF: 1"), .ok (.plist entries), .error e], []⟩).1
        = decodePairs entries) ∧
    (sms_list "ALL" "TXT"
        ⟨[.ok (.pstr "+CMGF: 1"), .ok (.plist []), .ok (.pstr "+CMGF: 0")], []⟩
      = (.ok [], ⟨[], ["AT+CMGF?", "AT+CMGL=\"ALL\"", "AT+CMGF?", "AT+CMGF=1"]⟩)) ∧
    (sms_list "ALL" "TXT"
        ⟨[.ok (.pstr "+CMGF: 0"), .ok (.pstr "+CMGF: 0"), .ok .pnone,
          .ok (.plist []), .ok (.pstr "+CMGF: 1"), .ok .pnone], []⟩
      = (.ok [], ⟨[], ["AT+CMGF?", "AT+CMGF?", "AT+CMGF=1", "AT+CMGL=\"ALL\"",
          "AT+CMGF?", "AT+CMGF=0"]⟩)) := by
  refine ⟨?_, ?_, ?_, rfl, rfl⟩
  · intro listR rest rest'
    exact ⟨rfl, rfl⟩
  · intro e
    rfl
  · intro entries e
    rfl

end LE910CX
